import Mathlib

/-!
Shallow embedding of `src/concrete/ml/sklearn/base.py`
(`QuantizedTorchEstimatorMixin`), a lifecycle adapter that trains a neural
network in floating point, quantizes it post-training, compiles the quantized
module into an encrypted-inference circuit, and dispatches prediction either
to the clear delegate path or the compiled circuit.

External collaborators (the skorch trainer/predictor, the tracer, the
quantization-parameter derivation, the compiler backend) are parameters of
the model, carried by an `Env` structure.  Parts of this repository that are
referenced but not present in the source tree (`concrete.ml.quantization`'s
`PostTrainingAffineQuantization` / quantized module, `concrete.ml.torch`'s
`NumpyModule`) are modelled from the spec and marked as such.

Type parameters:
  `D` delegate (skorch estimator) internal state, `E` external error values,
  `M` torch modules, `N` traced numpy modules, `Q` quantization parameters,
  `V` opaque pass-through values (hyperparameter values, compilation
  configuration, artifact collectors).
-/

namespace ConcreteML

/-- Numpy dtypes as far as this component observes them: the encrypted
prediction vector is created as `np.zeros((n,), np.int32)`; everything else
keeps its producer's native dtype. -/
inductive DType where
  | int32
  | native
deriving DecidableEq, Repr

/-- A numpy array of raw scalar values, as used by `predict`: either a 1-D
row or a 2-D batch of rows, tagged with its dtype. -/
inductive NDArray where
  | d1 (dtype : DType) (data : List Int)
  | d2 (dtype : DType) (rows : List (List Int))

/-- Errors surfacing from the adapter.  The two `ValueError`s raised by
`base.py` are the spec's `NotCalibratedError` ("please call .fit() first")
and `NotCompiledError` ("please call .compile() first"); every other error
is an external one propagated unchanged. -/
inductive Err (E : Type) where
  | notCalibrated
  | notCompiled
  | ext (e : E)

/-- Result of an adapter operation: a value or an error, in both cases
together with the adapter state after the call (Python mutates `self` in
place; here the state is passed explicitly). -/
inductive OpResult (E St α : Type) where
  | ok (val : α) (state : St)
  | err (e : Err E) (state : St)

/-- Modelled from the spec: the quantization input structure stored by the
Calibrated Module (`q_inputs[0]` in the source).  It holds the immutable
quantization parameters derived at fit time together with the quantized
values of the calibration samples; `update_values` refreshes the values
while keeping the derived parameters. -/
structure QInput (Q : Type) where
  params : Q
  values : List (List Int)

/-- Modelled from the spec: the Calibrated Module produced by
`PostTrainingAffineQuantization.quantize_module` (the `concrete.ml.quantization`
module is not in the source tree).  It carries the quantization input set,
the input-quantization function keyed to the fit-time parameters, and an
optional compiled circuit (`forward_fhe`), absent until `compile` succeeds. -/
structure QuantizedModule (Q : Type) where
  q_inputs : List (QInput Q)
  quantize_input : List Int → List Int
  forward_fhe : Option (List Int → List Int)

/-- The `is_compiled` flag as consulted by `predict`: whether a compiled
circuit is attached. -/
def QuantizedModule.is_compiled {Q : Type} (m : QuantizedModule Q) : Bool :=
  m.forward_fhe.isSome

/-- The circuit-free part of the Calibrated Module, which is all the clear
(delegate) prediction path may consult: per the spec the clear quantized
computation uses the quantization inputs and parameters but never the
Compiled Circuit. -/
def QuantizedModule.clearView {Q : Type} (m : QuantizedModule Q) :
    List (QInput Q) × (List Int → List Int) :=
  (m.q_inputs, m.quantize_input)

/-- The adapter: the delegate estimator's state plus the optional Calibrated
Module (`self.quantized_module_`, `None` until `fit` succeeds). -/
structure Adapter (D Q : Type) where
  delegate : D
  quantized_module_ : Option (QuantizedModule Q)

/-- The floating-point reference estimator built by `fit_benchmark`:
the deep-copied trained module, the deep-copied hyperparameters, and the
already-trained mark set by skorch's `initialize()`. -/
structure RefModel (M V : Type) where
  module : M
  params : List (String × V)
  trained : Bool

/-- skorch's `initialize()`: marks the estimator as trained without running
any training. -/
def RefModel.markTrained {M V : Type} (r : RefModel M V) : RefModel M V :=
  { r with trained := true }

/-- The external collaborators consumed by the adapter, as abstract
functions.  `superFit`/`superPredict` are the skorch base class's methods
(`superPredict` receives the circuit-free view of the Calibrated Module,
since the delegate's inference hook routes through the clear quantized
computation); `mkNumpyModule` is `NumpyModule(module, row0)`;
`deriveParams`/`quantRow` decompose the post-training affine quantization
routine into parameter derivation and per-row quantization;
`compileCircuit` is the compiler backend; `getParams`, `baseModule`,
`nBitsQuant` are the abstract properties `get_params`,
`base_module_to_compile`, `n_bits_quant` supplied by subclasses;
`indexError` is the error raised by indexing an empty array. -/
structure Env (D E M N Q V : Type) where
  superFit : D → List (List Int) → List Int → Except E D
  superPredict : D → Option (List (QInput Q) × (List Int → List Int)) → NDArray →
    Except E NDArray
  mkNumpyModule : M → List Int → N
  deriveParams : Nat → N → Bool → List (List Int) → Q
  quantRow : Q → List Int → List Int
  compileCircuit : QInput Q → Option V → Option V → Bool → Bool →
    Except E (List Int → List Int)
  getParams : D → List (String × V)
  baseModule : D → M
  nBitsQuant : D → Nat
  indexError : E

/-- Accumulator loop of `numpy.argmax` on a 1-D integer vector: index of the
first maximum. -/
def npArgmaxAux : List Int → Nat → Nat → Int → Nat
  | [], _, best, _ => best
  | x :: xs, i, best, bestVal =>
    if bestVal < x then npArgmaxAux xs (i + 1) i x
    else npArgmaxAux xs (i + 1) best bestVal

/-- Model of `numpy.argmax`: index of the first maximum (0 on the empty
vector, where numpy raises; not reached on the outputs of interest). -/
def npArgmax : List Int → Nat
  | [] => 0
  | x :: xs => npArgmaxAux xs 1 0 x

/-- Modelled from the spec: `update_values` on the quantization input
structure refreshes the contained values with newly quantized samples,
reusing the original quantization parameters (re-quantization of new
calibration samples, not re-derivation of parameters). -/
def QInput.update_values {D E M N Q V : Type} (env : Env D E M N Q V)
    (qi : QInput Q) (X : List (List Int)) : QInput Q :=
  { qi with values := X.map (env.quantRow qi.params) }

/-- Modelled from the spec: `PostTrainingAffineQuantization(n_bits,
numpy_model, is_signed)` (the quantization routine lives outside the source
tree). -/
structure PostTrainingAffineQuantization (N : Type) where
  n_bits : Nat
  numpy_model : N
  is_signed : Bool

/-- Modelled from the spec: `quantize_module(X)` derives quantization
parameters from the full calibration set and produces a Calibrated Module
whose input set holds the quantized calibration values, whose
`quantize_input` uses the derived parameters, and which carries no Compiled
Circuit yet (state Calibrated, not Compiled). -/
def PostTrainingAffineQuantization.quantize_module {D E M N Q V : Type}
    (ptq : PostTrainingAffineQuantization N) (env : Env D E M N Q V)
    (X : List (List Int)) : QuantizedModule Q :=
  let p := env.deriveParams ptq.n_bits ptq.numpy_model ptq.is_signed X
  { q_inputs := [{ params := p, values := X.map (env.quantRow p) }],
    quantize_input := env.quantRow p,
    forward_fhe := none }

/-- Modelled from the spec: the Calibrated Module's `compile` method
delegates to the compiler backend with the quantized input set and the
pass-through options, and on success attaches the Compiled Circuit
(`forward_fhe`), leaving everything else unchanged. -/
def QuantizedModule.compileFhe {D E M N Q V : Type} (m : QuantizedModule Q)
    (env : Env D E M N Q V) (inputset : QInput Q)
    (compilation_configuration compilation_artifacts : Option V)
    (show_mlir use_virtual_lib : Bool) : Except E (QuantizedModule Q) :=
  match env.compileCircuit inputset compilation_configuration
      compilation_artifacts show_mlir use_virtual_lib with
  | .error e => .error e
  | .ok circ => .ok { m with forward_fhe := some circ }

/-- Model of `QuantizedTorchEstimatorMixin.fit`: reset `quantized_module_` to `None`,
delegate to `super().fit(X, y)`, then build `NumpyModule(base_module_to_compile,
X[0])`, read `n_bits_quant`, run signed post-training affine quantization on
the full `X`, store the resulting module, and return `self`. -/
def Adapter.fit {D E M N Q V : Type} (a : Adapter D Q) (env : Env D E M N Q V)
    (X : List (List Int)) (y : List Int) :
    OpResult E (Adapter D Q) (Adapter D Q) :=
  let a1 : Adapter D Q := { a with quantized_module_ := none }
  match env.superFit a1.delegate X y with
  | .error e => .err (.ext e) a1
  | .ok d =>
    let a2 : Adapter D Q := { delegate := d, quantized_module_ := none }
    match X.head? with
    | none => .err (.ext env.indexError) a2
    | some x0 =>
      let numpy_model := env.mkNumpyModule (env.baseModule d) x0
      let n_bits := env.nBitsQuant d
      let post_training_quant : PostTrainingAffineQuantization N :=
        { n_bits := n_bits, numpy_model := numpy_model, is_signed := true }
      let a3 : Adapter D Q :=
        { delegate := d,
          quantized_module_ := some (post_training_quant.quantize_module env X) }
      .ok a3 a3

/-- Model of `QuantizedTorchEstimatorMixin.compile`: raise `NotCalibratedError` if
never fit; otherwise deepcopy `q_inputs[0]`, refresh its values with `X`
via `update_values`, and delegate to the quantized module's compilation with
the pass-through options. -/
def Adapter.compile {D E M N Q V : Type} (a : Adapter D Q)
    (env : Env D E M N Q V) (X : List (List Int))
    (compilation_configuration compilation_artifacts : Option V)
    (show_mlir use_virtual_lib : Bool) : OpResult E (Adapter D Q) Unit :=
  match a.quantized_module_ with
  | none => .err .notCalibrated a
  | some m =>
    match m.q_inputs.head? with
    | none => .err (.ext env.indexError) a
    | some qi0 =>
      let quantized_numpy_inputset := qi0.update_values env X
      match m.compileFhe env quantized_numpy_inputset
          compilation_configuration compilation_artifacts
          show_mlir use_virtual_lib with
      | .error e => .err (.ext e) a
      | .ok m2 => .ok () { a with quantized_module_ := some m2 }

/-- Model of `QuantizedTorchEstimatorMixin.predict`: in FHE mode, check calibration
then compilation, reshape a 1-D input to a batch of one, and for each row
quantize it, run the circuit, take the arg-max, collecting an `int32`
vector; in clear mode, delegate to `super().predict(X)`. -/
def Adapter.predict {D E M N Q V : Type} (a : Adapter D Q)
    (env : Env D E M N Q V) (X : NDArray) (execute_in_fhe : Bool) :
    OpResult E (Adapter D Q) NDArray :=
  if execute_in_fhe then
    match a.quantized_module_ with
    | none => .err .notCalibrated a
    | some m =>
      match m.forward_fhe with
      | none => .err .notCompiled a
      | some circ =>
        let batch := match X with
          | .d1 _ row => [row]
          | .d2 _ rows => rows
        .ok (.d1 .int32
          (batch.map (fun x => (npArgmax (circ (m.quantize_input x)) : Int)))) a
  else
    match env.superPredict a.delegate
        (a.quantized_module_.map QuantizedModule.clearView) X with
    | .error e => .err (.ext e) a
    | .ok y_pred => .ok y_pred a

/-- Model of `QuantizedTorchEstimatorMixin.fit_benchmark`: fit, then build a sibling
floating-point estimator from a deep copy of `get_params_for_benchmark()`
(dropping any `"module"` entry, supplied explicitly as a deep copy of the
trained `base_module_to_compile`), mark it trained via `initialize()`, and
return `(self, fp32_model)`. -/
def Adapter.fit_benchmark {D E M N Q V : Type} (a : Adapter D Q)
    (env : Env D E M N Q V) (X : List (List Int)) (y : List Int) :
    OpResult E (Adapter D Q) (Adapter D Q × RefModel M V) :=
  match a.fit env X y with
  | .err e s => .err e s
  | .ok _ a2 =>
    let new_object_params :=
      (env.getParams a2.delegate).map (fun p => (p.1, p.2))
    let module_copy := env.baseModule a2.delegate
    let params2 :=
      if new_object_params.any (fun p => p.1 = "module") then
        new_object_params.filter (fun p => p.1 ≠ "module")
      else new_object_params
    let fp32_model : RefModel M V :=
      { module := module_copy, params := params2, trained := false }
    .ok (a2, fp32_model.markTrained) a2

/-! ### Concrete instances used to evaluate the model on closed inputs -/

/-- A concrete environment over `Nat`-coded collaborators. -/
def testEnv : Env Nat Nat Nat Nat Nat Nat where
  superFit := fun d X _ => .ok (d + X.length)
  superPredict := fun _ _ X => .ok X
  mkNumpyModule := fun m x0 => m + x0.length
  deriveParams := fun nb nm sg X => nb + nm + X.length + (if sg then 1 else 0)
  quantRow := fun p row => row.map (fun v => v + (p : Int))
  compileCircuit := fun qi _ _ _ _ => .ok (fun r => r ++ [(qi.params : Int)])
  getParams := fun d => [("module", d), ("lr", 3)]
  baseModule := fun d => d
  nBitsQuant := fun _ => 2
  indexError := 99

/-- A second concrete environment, disagreeing with `testEnv` everywhere. -/
def testEnv2 : Env Nat Nat Nat Nat Nat Nat where
  superFit := fun _ _ _ => .error 1
  superPredict := fun _ _ _ => .error 2
  mkNumpyModule := fun _ _ => 0
  deriveParams := fun _ _ _ _ => 0
  quantRow := fun _ row => row
  compileCircuit := fun _ _ _ _ _ => .error 3
  getParams := fun _ => []
  baseModule := fun _ => 0
  nBitsQuant := fun _ => 0
  indexError := 0

/-- An environment whose delegate training always fails. -/
def testEnvFail : Env Nat Nat Nat Nat Nat Nat :=
  { testEnv with superFit := fun _ _ _ => .error 42 }

/-- A concrete compiled circuit used by `testModuleC`. -/
def testCircuit : List Int → List Int := fun r => [r.headD 0, 5]

/-- A concrete Calibrated Module carrying a compiled circuit. -/
def testModuleC : QuantizedModule Nat :=
  { q_inputs := [{ params := 5, values := [[1, 2]] }],
    quantize_input := fun r => r.map (fun v => v + 1),
    forward_fhe := some testCircuit }

/-- A concrete Calibrated Module without a compiled circuit. -/
def testModuleU : QuantizedModule Nat :=
  { q_inputs := [{ params := 5, values := [[1, 2]] }],
    quantize_input := fun r => r,
    forward_fhe := none }

/-- A freshly constructed (Untrained) adapter. -/
def testAdapter0 : Adapter Nat Nat := { delegate := 7, quantized_module_ := none }

/-- A Calibrated, not yet Compiled adapter. -/
def testAdapterU : Adapter Nat Nat := { delegate := 7, quantized_module_ := some testModuleU }

/-- A Compiled adapter. -/
def testAdapterC : Adapter Nat Nat := { delegate := 7, quantized_module_ := some testModuleC }

/-- The adapter state produced by `fit testEnv [[1, 2]] [0]` from a delegate
state of `7`. -/
def testAfterFit : Adapter Nat Nat :=
  { delegate := 8,
    quantized_module_ := some
      { q_inputs := [{ params := 14, values := [[15, 16]] }],
        quantize_input := fun r => r.map (fun v => v + (14 : Int)),
        forward_fhe := none } }

/-! ### Helper lemmas -/

/-- A successful `fit` returns `self` (value equals final state) and leaves
the adapter holding a Calibrated Module with no compiled circuit. -/
theorem fit_ok_state {D E M N Q V : Type} (env : Env D E M N Q V)
    (a : Adapter D Q) (X : List (List Int)) (y : List Int)
    (v s : Adapter D Q) (h : a.fit env X y = .ok v s) :
    v = s ∧ ∃ qm : QuantizedModule Q,
      s.quantized_module_ = some qm ∧ qm.forward_fhe = none := by
  cases X with
  | nil =>
    rcases hsf : env.superFit a.delegate [] y with e | d <;>
      simp [Adapter.fit, hsf] at h
  | cons x0 rest =>
    rcases hsf : env.superFit a.delegate (x0 :: rest) y with e | d <;>
      simp [Adapter.fit, hsf] at h
    obtain ⟨hv, hs⟩ := h
    subst hv; subst hs
    exact ⟨rfl, _, rfl, rfl⟩

/-- A successful `compile` leaves the delegate untouched and only attaches a
circuit to the module that was already present. -/
theorem compile_ok_state {D E M N Q V : Type} (env : Env D E M N Q V)
    (a : Adapter D Q) (X : List (List Int))
    (cfg arts : Option V) (sm uvl : Bool) (u : Unit) (s : Adapter D Q)
    (h : a.compile env X cfg arts sm uvl = .ok u s) :
    ∃ m circ, a.quantized_module_ = some m ∧
      s = { delegate := a.delegate,
            quantized_module_ := some { m with forward_fhe := some circ } } := by
  rcases hm : a.quantized_module_ with _ | m
  · simp [Adapter.compile, hm] at h
  rcases hqi : m.q_inputs with _ | ⟨qi0, rest⟩
  · simp [Adapter.compile, hm, hqi] at h
  rcases hcc : env.compileCircuit (qi0.update_values env X) cfg arts sm uvl with e | circ <;>
    simp [Adapter.compile, QuantizedModule.compileFhe, hm, hqi, hcc] at h
  refine ⟨m, circ, rfl, ?_⟩
  rw [hqi]
  exact h.symm

/-- Copying a parameter list entry by entry is the identity under value
semantics. -/
theorem map_pair_eta {α β : Type} (l : List (α × β)) :
    l.map (fun p => (p.1, p.2)) = l := by
  induction l with
  | nil => rfl
  | cons hd tl ih => simp [ih]

/-! ### Claim theorems -/

/-- C1: on an adapter whose Calibrated Module carries a Compiled Circuit
(fit then compile both succeeded), encrypted `predict` on a batch of N rows
returns an `int32` vector of length N whose entry i is the arg-max of the
circuit's output on the quantized row i (so each entry depends only on its
own input row, and permuting the input rows permutes the outputs
identically); a 1-D input is first reshaped to a batch of one. -/
theorem predict_fhe_batch_spec {D E M N Q V : Type} (env : Env D E M N Q V)
    (a : Adapter D Q) (m : QuantizedModule Q) (circ : List Int → List Int)
    (hm : a.quantized_module_ = some m) (hc : m.forward_fhe = some circ) :
    (∀ dt rows, a.predict env (.d2 dt rows) true =
      .ok (.d1 .int32
        (rows.map (fun x => (npArgmax (circ (m.quantize_input x)) : Int)))) a)
    ∧ (∀ dt row, a.predict env (.d1 dt row) true =
      .ok (.d1 .int32 [(npArgmax (circ (m.quantize_input row)) : Int)]) a)
    ∧ (∀ rows : List (List Int),
      (rows.map (fun x => (npArgmax (circ (m.quantize_input x)) : Int))).length
        = rows.length)
    ∧ (∀ (rows : List (List Int)) (i : Nat),
      (rows.map (fun x => (npArgmax (circ (m.quantize_input x)) : Int)))[i]?
        = rows[i]?.map (fun x => (npArgmax (circ (m.quantize_input x)) : Int)))
    ∧ (∀ rows rows₂ : List (List Int), rows.Perm rows₂ →
      (rows.map (fun x => (npArgmax (circ (m.quantize_input x)) : Int))).Perm
        (rows₂.map (fun x => (npArgmax (circ (m.quantize_input x)) : Int)))) := by
  refine ⟨fun dt rows => ?_, fun dt row => ?_, fun rows => by simp,
    fun rows i => by simp, fun rows rows₂ hp => hp.map _⟩
  · simp [Adapter.predict, hm, hc]
  · simp [Adapter.predict, hm, hc]

/-- C1 witness: the batch clause evaluated on a concrete compiled adapter. -/
theorem predict_fhe_batch_spec_witness :
    testAdapterC.predict testEnv (.d2 .native [[3], [9]]) true
      = .ok (.d1 .int32 [1, 0]) testAdapterC :=
  ((predict_fhe_batch_spec testEnv testAdapterC testModuleC testCircuit
      rfl rfl).1 .native [[3], [9]]).trans (by rfl)

/-- C2: on an Untrained adapter (no Calibrated Module), both `compile` and
encrypted `predict` fail with `NotCalibratedError` for every input, leaving
the state unchanged, and delegate nothing: their result is the same under
any two environments of external collaborators. -/
theorem untrained_fhe_ops_notCalibrated {D E M N Q V : Type}
    (env env₂ : Env D E M N Q V) (a : Adapter D Q)
    (h : a.quantized_module_ = none) :
    (∀ X cfg arts sm uvl, a.compile env X cfg arts sm uvl = .err .notCalibrated a)
    ∧ (∀ X, a.predict env X true = .err .notCalibrated a)
    ∧ (∀ X cfg arts sm uvl,
        a.compile env X cfg arts sm uvl = a.compile env₂ X cfg arts sm uvl)
    ∧ (∀ X, a.predict env X true = a.predict env₂ X true) := by
  refine ⟨fun X cfg arts sm uvl => ?_, fun X => ?_,
    fun X cfg arts sm uvl => ?_, fun X => ?_⟩ <;>
    simp [Adapter.compile, Adapter.predict, h]

/-- C2 witness: both operations evaluated on a concrete untrained adapter. -/
theorem untrained_fhe_ops_notCalibrated_witness :
    testAdapter0.compile testEnv [[1]] none none false false
        = .err .notCalibrated testAdapter0
    ∧ testAdapter0.predict testEnv (.d1 .native [1]) true
        = .err .notCalibrated testAdapter0 :=
  ⟨(untrained_fhe_ops_notCalibrated testEnv testEnv2 testAdapter0 rfl).1
      [[1]] none none false false,
   (untrained_fhe_ops_notCalibrated testEnv testEnv2 testAdapter0 rfl).2.1
      (.d1 .native [1])⟩

/-- C3: encrypted `predict` on a Calibrated adapter whose module has no
Compiled Circuit fails with `NotCompiledError` for every input. -/
theorem uncompiled_predict_fhe_notCompiled {D E M N Q V : Type}
    (env : Env D E M N Q V) (a : Adapter D Q) (m : QuantizedModule Q)
    (hm : a.quantized_module_ = some m) (hc : m.forward_fhe = none) :
    ∀ X, a.predict env X true = .err .notCompiled a := by
  intro X
  simp [Adapter.predict, hm, hc]

/-- C3 witness: evaluated on a concrete calibrated-but-uncompiled adapter. -/
theorem uncompiled_predict_fhe_notCompiled_witness :
    testAdapterU.predict testEnv (.d1 .native [1]) true
      = .err .notCompiled testAdapterU :=
  uncompiled_predict_fhe_notCompiled testEnv testAdapterU testModuleU rfl rfl
    (.d1 .native [1])

/-- C4: `fit` discards the Calibrated Module before delegating (the delegate
is trained from the original delegate state), and if delegate training
fails, the error propagates unchanged while the adapter is left Untrained
with its delegate state intact. -/
theorem fit_delegate_failure_propagates {D E M N Q V : Type}
    (env : Env D E M N Q V) (a : Adapter D Q)
    (X : List (List Int)) (y : List Int) (e : E)
    (hsf : env.superFit a.delegate X y = .error e) :
    a.fit env X y = .err (.ext e)
      { delegate := a.delegate, quantized_module_ := none } := by
  simp [Adapter.fit, hsf]

/-- C4 witness: delegate failure evaluated on a concrete compiled adapter. -/
theorem fit_delegate_failure_propagates_witness :
    testAdapterC.fit testEnvFail [[1, 2]] [0] = .err (.ext 42)
      { delegate := 7, quantized_module_ := none } :=
  fit_delegate_failure_propagates testEnvFail testAdapterC [[1, 2]] [0] 42 rfl

/-- C5: `compile` works on a copy of the stored quantization input whose
values are refreshed from the new data under the original quantization
parameters; on success the resulting adapter keeps the stored `q_inputs`
and `quantize_input` unchanged and only attaches the Compiled Circuit. -/
theorem compile_success_preserves_module {D E M N Q V : Type}
    (env : Env D E M N Q V) (a : Adapter D Q) (m : QuantizedModule Q)
    (qi0 : QInput Q) (rest : List (QInput Q)) (X : List (List Int))
    (cfg arts : Option V) (sm uvl : Bool) (circ : List Int → List Int)
    (hm : a.quantized_module_ = some m) (hq : m.q_inputs = qi0 :: rest)
    (hcc : env.compileCircuit (qi0.update_values env X) cfg arts sm uvl = .ok circ) :
    (a.compile env X cfg arts sm uvl =
      .ok () { delegate := a.delegate,
               quantized_module_ := some
                 { q_inputs := m.q_inputs,
                   quantize_input := m.quantize_input,
                   forward_fhe := some circ } })
    ∧ (qi0.update_values env X).params = qi0.params
    ∧ (qi0.update_values env X).values = X.map (env.quantRow qi0.params) := by
  refine ⟨?_, rfl, rfl⟩
  simp [Adapter.compile, QuantizedModule.compileFhe, hm, hq, hcc]

/-- C5 witness: compilation evaluated on a concrete calibrated adapter. -/
theorem compile_success_preserves_module_witness :
    testAdapterU.compile testEnv [[3, 4]] none none false false =
      .ok () { delegate := 7,
               quantized_module_ := some
                 { q_inputs := [{ params := 5, values := [[1, 2]] }],
                   quantize_input := testModuleU.quantize_input,
                   forward_fhe := some (fun r => r ++ [((5 : Nat) : Int)]) } } :=
  (compile_success_preserves_module testEnv testAdapterU testModuleU
      { params := 5, values := [[1, 2]] } [] [[3, 4]] none none false false
      (fun r => r ++ [((5 : Nat) : Int)]) rfl rfl rfl).1

/-- C6: re-fitting an already-Compiled adapter resets it to
Calibrated-without-Compiled: after the second successful `fit`, encrypted
`predict` fails with `NotCompiledError` for every input, until a successful
`compile` after which encrypted `predict` returns a value again. -/
theorem refit_requires_recompile {D E M N Q V : Type} (env : Env D E M N Q V)
    (a : Adapter D Q) (m0 : QuantizedModule Q) (c0 : List Int → List Int)
    (X : List (List Int)) (y : List Int) (v a2 : Adapter D Q)
    (_hm0 : a.quantized_module_ = some m0) (_hc0 : m0.forward_fhe = some c0)
    (hfit : a.fit env X y = .ok v a2) :
    (∀ Xp, a2.predict env Xp true = .err .notCompiled a2)
    ∧ (∀ X2 cfg arts sm uvl u a3,
        a2.compile env X2 cfg arts sm uvl = .ok u a3 →
        ∀ Xp, ∃ out, a3.predict env Xp true = .ok out a3) := by
  obtain ⟨hv, qm, hs, hfhe⟩ := fit_ok_state env a X y v a2 hfit
  constructor
  · intro Xp
    simp [Adapter.predict, hs, hfhe]
  · intro X2 cfg arts sm uvl u a3 hcomp Xp
    obtain ⟨m, circ, hm3, hs3⟩ := compile_ok_state env a2 X2 cfg arts sm uvl u a3 hcomp
    subst hs3
    exact ⟨_, rfl⟩

/-- C6 witness: the post-refit `NotCompiledError` clause evaluated on a
concrete compiled adapter refit on new data. -/
theorem refit_requires_recompile_witness :
    testAfterFit.predict testEnv (.d1 .native [1]) true
      = .err .notCompiled testAfterFit :=
  (refit_requires_recompile testEnv testAdapterC testModuleC testCircuit
      [[1, 2]] [0] testAfterFit testAfterFit rfl rfl rfl).1 (.d1 .native [1])

/-- C7: on non-empty data, when delegate training succeeds, `fit` succeeds,
returns `self` (value equals final state), and leaves the adapter Calibrated
with the module produced by signed post-training affine quantization at the
estimator's configured bit-width, traced from row 0 and calibrated on the
full data set. -/
theorem fit_success_calibrated {D E M N Q V : Type} (env : Env D E M N Q V)
    (a : Adapter D Q) (X : List (List Int)) (y : List Int)
    (x0 : List Int) (rest : List (List Int)) (d : D)
    (hX : X = x0 :: rest) (hsf : env.superFit a.delegate X y = .ok d) :
    a.fit env X y =
      .ok { delegate := d, quantized_module_ := some
              ((⟨env.nBitsQuant d, env.mkNumpyModule (env.baseModule d) x0, true⟩ :
                PostTrainingAffineQuantization N).quantize_module env X) }
          { delegate := d, quantized_module_ := some
              ((⟨env.nBitsQuant d, env.mkNumpyModule (env.baseModule d) x0, true⟩ :
                PostTrainingAffineQuantization N).quantize_module env X) } := by
  subst hX
  simp [Adapter.fit, hsf]

/-- C7 witness: a successful fit evaluated on a concrete untrained adapter. -/
theorem fit_success_calibrated_witness :
    testAdapter0.fit testEnv [[1, 2]] [0] = .ok testAfterFit testAfterFit :=
  (fit_success_calibrated testEnv testAdapter0 [[1, 2]] [0] [1, 2] [] 8
      rfl rfl).trans (by rfl)

/-- C8: on an at-least-Calibrated adapter, clear-mode `predict` delegates to
the underlying estimator's predict path and succeeds whenever the delegate
does; the result never consults the Compiled Circuit — replacing
`forward_fhe` by anything yields the same prediction. -/
theorem predict_clear_ignores_circuit {D E M N Q V : Type}
    (env : Env D E M N Q V) (a : Adapter D Q) (m : QuantizedModule Q)
    (X yp : NDArray)
    (hm : a.quantized_module_ = some m)
    (hp : env.superPredict a.delegate (some m.clearView) X = .ok yp) :
    (a.predict env X false = .ok yp a)
    ∧ ∀ fhe₂ : Option (List Int → List Int),
        (Adapter.mk a.delegate
            (some { m with forward_fhe := fhe₂ })).predict env X false
          = .ok yp (Adapter.mk a.delegate (some { m with forward_fhe := fhe₂ })) := by
  constructor
  · simp [Adapter.predict, hm, hp]
  · intro fhe₂
    simp only [QuantizedModule.clearView] at hp
    simp [Adapter.predict, QuantizedModule.clearView, hp]

/-- C8 witness: clear prediction evaluated on a concrete
calibrated-but-uncompiled adapter. -/
theorem predict_clear_ignores_circuit_witness :
    testAdapterU.predict testEnv (.d1 .native [1, 2]) false
      = .ok (.d1 .native [1, 2]) testAdapterU :=
  (predict_clear_ignores_circuit testEnv testAdapterU testModuleU
      (.d1 .native [1, 2]) (.d1 .native [1, 2]) rfl rfl).1

/-- C9: after a successful `fit`, `fit_benchmark` returns the pair of the
fitted adapter (Calibrated: module present) and a reference model built from
the adapter's hyperparameters with any "module" entry removed, the trained
network supplied explicitly, and the already-trained mark set; the reference
model's hyperparameters never contain a "module" entry. -/
theorem fit_benchmark_reference_model {D E M N Q V : Type}
    (env : Env D E M N Q V) (a : Adapter D Q)
    (X : List (List Int)) (y : List Int) (v a2 : Adapter D Q)
    (hfit : a.fit env X y = .ok v a2) :
    (a.fit_benchmark env X y =
      .ok (a2, RefModel.mk (env.baseModule a2.delegate)
            (if (env.getParams a2.delegate).any (fun p => p.1 = "module") then
              (env.getParams a2.delegate).filter (fun p => p.1 ≠ "module")
             else env.getParams a2.delegate) true) a2)
    ∧ (∀ pv : V, ("module", pv) ∉
        (if (env.getParams a2.delegate).any (fun p => p.1 = "module") then
          (env.getParams a2.delegate).filter (fun p => p.1 ≠ "module")
         else env.getParams a2.delegate))
    ∧ a2.quantized_module_.isSome = true := by
  obtain ⟨hv, qm, hs, hfhe⟩ := fit_ok_state env a X y v a2 hfit
  refine ⟨?_, ?_, by simp [hs]⟩
  · simp [Adapter.fit_benchmark, hfit, RefModel.markTrained, map_pair_eta]
    rw [map_pair_eta]
  · intro pv
    split
    · intro hmem
      rcases List.mem_filter.mp hmem with ⟨_, hne⟩
      simp at hne
    · intro hmem
      next hany =>
        exact hany (List.any_eq_true.mpr ⟨("module", pv), hmem, by simp⟩)

/-- C9 witness: the benchmark pair evaluated on a concrete untrained
adapter. -/
theorem fit_benchmark_reference_model_witness :
    testAdapter0.fit_benchmark testEnv [[1, 2]] [0] =
      .ok (testAfterFit, RefModel.mk 8 [("lr", 3)] true) testAfterFit :=
  ((fit_benchmark_reference_model testEnv testAdapter0 [[1, 2]] [0]
      testAfterFit testAfterFit rfl).1).trans (by rfl)

/-- C10: clear-mode `predict` performs no lifecycle check: on an Untrained
adapter it still delegates to the underlying estimator's predict, returning
its value on success and propagating its error unchanged on failure; it
never fails with `NotCalibratedError` or `NotCompiledError`. -/
theorem predict_clear_no_state_check {D E M N Q V : Type}
    (env : Env D E M N Q V) (a : Adapter D Q) (X : NDArray)
    (h : a.quantized_module_ = none) :
    (∀ yp, env.superPredict a.delegate none X = .ok yp →
      a.predict env X false = .ok yp a)
    ∧ (∀ e, env.superPredict a.delegate none X = .error e →
      a.predict env X false = .err (.ext e) a)
    ∧ (∀ s, a.predict env X false ≠ .err .notCalibrated s
          ∧ a.predict env X false ≠ .err .notCompiled s) := by
  refine ⟨fun yp hyp => by simp [Adapter.predict, h, hyp],
    fun e he => by simp [Adapter.predict, h, he], fun s => ?_⟩
  rcases hsp : env.superPredict a.delegate none X with e | yp <;>
    constructor <;> simp [Adapter.predict, h, hsp]

/-- C10 witness: clear prediction on a concrete untrained adapter. -/
theorem predict_clear_no_state_check_witness :
    testAdapter0.predict testEnv (.d1 .native [3]) false
      = .ok (.d1 .native [3]) testAdapter0 :=
  (predict_clear_no_state_check testEnv testAdapter0 (.d1 .native [3]) rfl).1
    (.d1 .native [3]) rfl

end ConcreteML
